import Mathlib

/-!
Verification development for the certifications REST API (src/app.py).

The Python endpoints filter a single table of certification records and
return paginated HTML-table responses.  The definitions below are a shallow
embedding of the code paths the claims touch:

* the record type (`CertModel`, app.py:114-122) becomes `Cert`;
* the SQLAlchemy filter expressions become boolean predicates on `Cert`
  (SQL `=` is string equality, `func.lower` is ASCII lowercasing, and SQL
  `LIKE` / `ilike` is the wildcard pattern matcher `likeMatch`, where `"%"`
  matches any run of characters and `"_"` one character — the code
  interpolates raw user input into the pattern without escaping);
* `Query.paginate` (flask-sqlalchemy, called with its default
  `error_out=True`) becomes `paginate`: it validates `page`/`per_page`,
  cuts the offset/limit window, raises HTTP 404 when the window is empty
  and `page != 1`, and reports `pages = ceil(total/per_page)`
  (0 when `total = 0`), `has_prev = page > 1`, `has_next = page < pages`;
* `html.escape` (quote=True) becomes `escape`; the successive
  `str.replace` calls of the Python implementation amount to the
  character-wise map used here;
* dates are embedded as `Int` in ISO-numeral form (e.g. 2024-05-30 as
  20240530), which is order-isomorphic to calendar order; `None` becomes
  `Option.none`.
-/

namespace CertApp

/-- Certification record, from `CertModel` (app.py:114-122).  `expirydate`
is nullable; all other columns are strings filled by `CertInSchema`. -/
structure Cert where
  id : Nat
  employeename : String
  certificatetype : String
  certificatedescription : String
  certificatelink : String
  expirydate : Option Int
  deriving DecidableEq

/-- The single sample record seeded by `/database/recreate` (app.py:98-109). -/
def patrickCert : Cert :=
  { id := 1
    employeename := "Patrick Dlamini"
    certificatetype := "Microsoft"
    certificatedescription := "Azure fundamentals: AZ-900"
    certificatelink := "https://learn.microsoft.com/en-us/credentials/certifications/azure-fundamentals/?practice-assessment-type=certification"
    expirydate := some 20240530 }

/-- `sample_certs` (app.py:98-109). -/
def sample_certs : List Cert := [patrickCert]

/-- ASCII lowercasing of a string, the embedding of Python `str.lower` and
SQL `lower(...)` on the ASCII data appearing in this application.
`Char.toLower` maps `A`-`Z` to `a`-`z` and fixes everything else. -/
def lowerStr (s : String) : String := ⟨s.data.map Char.toLower⟩

/-- Python whitespace test used by `str.split()` (space, tab, LF, VT, FF, CR). -/
def isWS (c : Char) : Bool :=
  c.toNat = 32 || c.toNat = 9 || c.toNat = 10 || c.toNat = 11 || c.toNat = 12 || c.toNat = 13

/-- Helper for `splitWhite`: accumulates the current word (reversed). -/
def splitWhiteAux (cur : List Char) : List Char → List String
  | [] => if cur.isEmpty then [] else [⟨cur.reverse⟩]
  | c :: cs =>
    if isWS c then
      (if cur.isEmpty then splitWhiteAux [] cs else ⟨cur.reverse⟩ :: splitWhiteAux [] cs)
    else
      splitWhiteAux (c :: cur) cs

/-- Python `str.split()` with no argument: split on runs of whitespace,
dropping empty pieces (app.py:320). -/
def splitWhite (s : String) : List String := splitWhiteAux [] s.data

/-- The stop-word set of `search_certifications_nlp` (app.py:302-317),
transcribed verbatim (the Python set literal repeats a few words; a list
with duplicates has the same membership). -/
def stopWords : List String :=
  ["i", "want", "to", "search", "the", "for", "a", "and", "or", "of",
   "let", "me", "see", "that", "need", "be", "shown",
   "is", "am", "are", "was", "were", "be", "been", "being",
   "this", "which", "who", "whom", "what", "where", "when", "why",
   "how", "can", "could", "should", "would", "may", "might", "must",
   "has", "have", "had", "do", "does", "did", "just", "only",
   "then", "than", "so", "if", "not", "but", "more", "some",
   "all", "any", "each", "few", "more", "most", "same", "other",
   "such", "no", "yes", "now", "about", "above", "after", "again",
   "against", "along", "also", "among", "around", "at", "before",
   "between", "by", "during", "except", "for", "from", "in",
   "inside", "into", "like", "near", "next", "of", "off", "on",
   "onto", "out", "over", "past", "since", "through", "to",
   "toward", "under", "until", "up", "with", "without"]

/-- The stop-word stage of the tokenizer on an already split word list:
`[word.lower() for word in words if word.lower() not in stop_words]`
(app.py:320). -/
def tokenizeWords (ws : List String) : List String :=
  (ws.map lowerStr).filter (fun w => !(stopWords.contains w))

/-- The full tokenizer of `search_certifications_nlp` (app.py:320):
split on whitespace, lowercase, drop stop words. -/
def tokenize (s : String) : List String := tokenizeWords (splitWhite s)

/-- SQL `LIKE` pattern matching: `%` matches any run of characters, `_`
matches exactly one character, any other pattern character matches itself.
`likeMatch p s` is true when the whole of `s` matches the whole pattern
`p`.  This is the semantics of the unescaped `like`/`ilike` calls in
app.py:333-336, 446-448 and 740-743. -/
def likeMatch (p : List Char) : List Char → Bool :=
  match p with
  | [] => fun s => s.isEmpty
  | q :: ps =>
    fun s =>
      if q = '%' then s.tails.any (fun t => likeMatch ps t)
      else
        match s with
        | [] => false
        | c :: s2 => (q == '_' || q == c) && likeMatch ps s2

/-- String-level `LIKE`. -/
def likeS (pat s : String) : Bool := likeMatch pat.data s.data

/-- SQLAlchemy `column.ilike(pat)`: case-insensitive `LIKE`, i.e.
`lower(column) LIKE lower(pat)`. -/
def ciLike (col pat : String) : Bool := likeS (lowerStr pat) (lowerStr col)

/-- One token of the free-text search (app.py:332-337):
`lower(employeename) LIKE '%w%' OR lower(certificatetype) LIKE '%w%'
OR lower(certificatedescription) LIKE '%w%'` (the token `w` is already
lowercase when this runs). -/
def nlpWordMatch (w : String) (r : Cert) : Bool :=
  likeS ("%" ++ w ++ "%") (lowerStr r.employeename) ||
  likeS ("%" ++ w ++ "%") (lowerStr r.certificatetype) ||
  likeS ("%" ++ w ++ "%") (lowerStr r.certificatedescription)

/-- The chained `.filter` calls of the free-text search AND all tokens
together (app.py:332-337). -/
def nlpMatch (ws : List String) (r : Cert) : Bool :=
  ws.all (fun w => nlpWordMatch w r)

/-- Keyword predicate of `/certifications/keyword/<tkeyword>`
(app.py:446-448): `description ilike '%kw%' OR type ilike '%kw%'`. -/
def keywordMatch (kw : String) (r : Cert) : Bool :=
  ciLike r.certificatedescription ("%" ++ kw ++ "%") ||
  ciLike r.certificatetype ("%" ++ kw ++ "%")

/-- Name predicate of `/certifications/name/<employeename>` (app.py:393):
plain SQL equality `employeename = value`, with no lowercasing. -/
def nameMatch (q : String) (r : Cert) : Bool := r.employeename == q

/-- Case-insensitive name predicate used by the combined name endpoints
(app.py:562, 622, 682, 741): `lower(employeename) = value.lower()`. -/
def nameMatchCI (q : String) (r : Cert) : Bool := lowerStr r.employeename == lowerStr q

/-- Predicate of `/certifications/name/<employeename>/<tkeyword>`
(app.py:740-744): case-insensitive name equality AND the keyword test. -/
def nameKeywordMatch (nm kw : String) (r : Cert) : Bool :=
  nameMatchCI nm r && keywordMatch kw r

/-- Predicate of `/certifications/invalid` (app.py:216-218):
`expirydate < current_date`; a NULL expiry date satisfies no SQL
comparison, hence `none` yields `false`. -/
def expiredMatch (today : Int) (r : Cert) : Bool :=
  match r.expirydate with
  | none => false
  | some d => decide (d < today)

/-- Predicate of `/certifications/valid` (app.py:259-261):
`expirydate > current_date`. -/
def validMatch (today : Int) (r : Cert) : Bool :=
  match r.expirydate with
  | none => false
  | some d => decide (today < d)

/-- Predicate of `/certifications/nodate` (app.py:173-175):
`expirydate IS NULL`. -/
def nodateMatch (r : Cert) : Bool := r.expirydate.isNone

/-- One character of Python `html.escape(s, quote=True)`: the sequential
`str.replace` calls of the library function act independently on each
source character, so the whole escape is the concatenation of this map. -/
def escapeChar (c : Char) : String :=
  if c = '&' then "&amp;"
  else if c = '<' then "&lt;"
  else if c = '>' then "&gt;"
  else if c = Char.ofNat 34 then "&quot;"
  else if c = Char.ofNat 39 then "&#x27;"
  else ⟨[c]⟩

/-- Python `html.escape` with its default `quote=True` (app.py table rows). -/
def escape (s : String) : String :=
  ⟨(s.data.map (fun c => (escapeChar c).data)).flatten⟩

/-- Python `str(...)` on the nullable expiry date: `str(None) = "None"`,
otherwise the printed date (digits and dashes in the source; here the
decimal form of the `Int` encoding — in both cases free of HTML
metacharacters, and escaped anyway). -/
def dateStr : Option Int → String
  | none => "None"
  | some d => toString d

/-- The fixed table header row built by every endpoint
(app.py:186, 229, 272, 370, 417, 474, 530, 590, 650, 710, 770). -/
def headerRow : String :=
  "<table border='1'><tr><th>Name</th><th>CertificateType</th><th>CertificateDescription</th><th>CertificateLink</th><th>ExpirationDate</th></tr>"

/-- One `<tr>` row of the result table: the five field values are each
passed through `html.escape` before being spliced between the fixed
markup (the f-string at app.py:190 and its clones). -/
def rowHtml (r : Cert) : String :=
  "<tr><td>" ++ escape r.employeename ++
  "</td><td>" ++ escape r.certificatetype ++
  "</td><td>" ++ escape r.certificatedescription ++
  "</td><td>" ++ escape r.certificatelink ++
  "</td><td>" ++ escape (dateStr r.expirydate) ++
  "</td></tr>"

/-- The `for cert in certs: table_html += ...` loop. -/
def rowsHtml : List Cert → String
  | [] => ""
  | r :: rs => rowHtml r ++ rowsHtml rs

/-- The complete `"table"` string of a response: header, one row per
matched record, closing tag. -/
def tableHtml (certs : List Cert) : String :=
  headerRow ++ rowsHtml certs ++ "</table>"

/-- Number of occurrences of a character in a string. -/
def countChar (c : Char) (s : String) : Nat := s.data.count c

/-- `Pagination.pages` of flask-sqlalchemy: `ceil(total / per_page)`,
and `0` when `total = 0`. -/
def pagesFor (total per_page : Nat) : Nat :=
  if total = 0 then 0 else (total + per_page - 1) / per_page

/-- The data flask-sqlalchemy's `Pagination` object exposes to the
endpoints (page, per_page, pages, total, and the item window). -/
structure PageData where
  page : Nat
  per_page : Nat
  pages : Nat
  total : Nat
  items : List Cert
  deriving DecidableEq

/-- `Query.paginate(page=..., per_page=...)` as called throughout
app.py — with the library's default `error_out=True`:
a non-positive `page` or `per_page` aborts with 404, and an empty item
window on a page other than 1 aborts with 404.  Otherwise it returns the
offset/limit window `(page-1)*per_page, per_page` together with the
counts. -/
def paginate (ms : List Cert) (page per_page : Nat) : Except Nat PageData :=
  if page < 1 then Except.error 404
  else if per_page < 1 then Except.error 404
  else if (ms.drop ((page - 1) * per_page)).take per_page = [] ∧ page ≠ 1 then
    Except.error 404
  else
    Except.ok
      { page := page
        per_page := per_page
        pages := pagesFor ms.length per_page
        total := ms.length
        items := (ms.drop ((page - 1) * per_page)).take per_page }

/-- The `pagination_info` dict assembled by the endpoints
(app.py:352-362 and clones); the `url_for` links are represented by the
page number they would carry. -/
structure PagLinks where
  page : Nat
  per_page : Nat
  pages : Nat
  total : Nat
  current : Nat
  first : Nat
  last : Nat
  prev : Option Nat
  next : Option Nat
  deriving DecidableEq

/-- Builds `pagination_info` from the pagination object:
`has_prev = page > 1` with `prev_num = page - 1`, and
`has_next = page < pages` with `next_num = page + 1`. -/
def pagination_info (p : PageData) : PagLinks :=
  { page := p.page
    per_page := p.per_page
    pages := p.pages
    total := p.total
    current := p.page
    first := 1
    last := p.pages
    prev := if 1 < p.page then some (p.page - 1) else none
    next := if p.page < p.pages then some (p.page + 1) else none }

/-- JSON body of an endpoint response.  `pagination` and `search_terms`
are `none` exactly when the corresponding key is absent from the Python
dict passed to `jsonify`. -/
structure Response where
  table : String
  pagination : Option PagLinks
  search_terms : Option (List String)
  message : String
  deriving DecidableEq

/-- `/certifications/keyword/<tkeyword>` (app.py:442-491). -/
def get_certs_by_keyword (tkeyword : String) (page per_page : Nat) (db : List Cert) :
    Except Nat Response :=
  match paginate (db.filter (fun r => keywordMatch tkeyword r)) page per_page with
  | Except.error e => Except.error e
  | Except.ok p =>
    Except.ok
      { table := tableHtml p.items
        pagination := some (pagination_info p)
        search_terms := none
        message := "Certification data retrieved successfully by keyword" }

/-- `/certifications/name/<employeename>` (app.py:389-434). -/
def get_certs_by_name (employeename : String) (page per_page : Nat) (db : List Cert) :
    Except Nat Response :=
  match paginate (db.filter (fun r => nameMatch employeename r)) page per_page with
  | Except.error e => Except.error e
  | Except.ok p =>
    Except.ok
      { table := tableHtml p.items
        pagination := some (pagination_info p)
        search_terms := none
        message := "Certification data retrieved successfully" }

/-- `/certifications/name/<employeename>/<tkeyword>` (app.py:734-787). -/
def get_certs_by_name_and_keyword (employeename tkeyword : String) (page per_page : Nat)
    (db : List Cert) : Except Nat Response :=
  match paginate (db.filter (fun r => nameKeywordMatch employeename tkeyword r)) page per_page with
  | Except.error e => Except.error e
  | Except.ok p =>
    Except.ok
      { table := tableHtml p.items
        pagination := some (pagination_info p)
        search_terms := none
        message := "Valid certification data retrieved successfully for " ++ employeename ++ " and " ++ tkeyword }

/-- `/certifications/invalid` (app.py:210-246): records whose expiry date
is strictly before the current date. -/
def get_invalid_certs (today : Int) (page per_page : Nat) (db : List Cert) :
    Except Nat Response :=
  match paginate (db.filter (fun r => expiredMatch today r)) page per_page with
  | Except.error e => Except.error e
  | Except.ok p =>
    Except.ok
      { table := tableHtml p.items
        pagination := some (pagination_info p)
        search_terms := none
        message := "inValid certification data retrieved successfully" }

/-- `/certifications/valid` (app.py:253-289): records whose expiry date is
strictly after the current date. -/
def get_valid_certs (today : Int) (page per_page : Nat) (db : List Cert) :
    Except Nat Response :=
  match paginate (db.filter (fun r => validMatch today r)) page per_page with
  | Except.error e => Except.error e
  | Except.ok p =>
    Except.ok
      { table := tableHtml p.items
        pagination := some (pagination_info p)
        search_terms := none
        message := "Valid certification data retrieved successfully" }

/-- The short-circuit response of the free-text search when no token
survives stop-word removal (app.py:322-326): only a placeholder table and
a message, no pagination object, no search_terms key. -/
def noTermsResponse : Response :=
  { table := "<table border='1'><tr><th>No results</th></tr></table>"
    pagination := none
    search_terms := none
    message := "No valid search terms found after removing common words" }

/-- `/certifications/nlp/<query_text>` (app.py:296-382). -/
def search_certifications_nlp (query_text : String) (page per_page : Nat) (db : List Cert) :
    Except Nat Response :=
  if (tokenize query_text).isEmpty then Except.ok noTermsResponse
  else
    match paginate (db.filter (fun r => nlpMatch (tokenize query_text) r)) page per_page with
    | Except.error e => Except.error e
    | Except.ok p =>
      Except.ok
        { table := tableHtml p.items
          pagination := some (pagination_info p)
          search_terms := some (tokenize query_text)
          message := "Search results for: " ++ query_text }

/-- HTTP error as produced by apiflask `abort`. -/
structure HttpError where
  status : Nat
  message : String
  deriving DecidableEq

/-- `POST /database/recreate` (app.py:809-825): only with
`confirmation=true` does it drop, recreate and seed the table; otherwise
`abort(400, 'confirmation is missing')` fires before any database
statement runs, leaving the stored records unchanged.  The pair returned
is (HTTP outcome, database state after the request). -/
def create_database (confirmation : Bool) (db : List Cert) :
    Except HttpError String × List Cert :=
  if confirmation = true then (Except.ok "database recreated", sample_certs)
  else (Except.error { status := 400, message := "confirmation is missing" }, db)

/-- Discriminates successful responses. -/
def isOkE (e : Except Nat Response) : Bool :=
  match e with
  | Except.ok _ => true
  | Except.error _ => false

/-- True when a response was produced and carries both a pagination
object and a search_terms field. -/
def okHasPagAndTerms (e : Except Nat Response) : Bool :=
  match e with
  | Except.ok r => r.pagination.isSome && r.search_terms.isSome
  | Except.error _ => false

/-! ### Helper lemmas -/

lemma data_append (s t : String) : (s ++ t).data = s.data ++ t.data := by
  cases s
  cases t
  rfl

lemma likeMatch_pct (ps s : List Char) :
    likeMatch ('%' :: ps) s = s.tails.any (fun t => likeMatch ps t) := rfl

lemma likeMatch_cons (q : Char) (ps : List Char) (h : ¬ q = '%') (c : Char) (s2 : List Char) :
    likeMatch (q :: ps) (c :: s2) = ((q == '_' || q == c) && likeMatch ps s2) := by
  show (if q = '%' then _ else _) = _
  rw [if_neg h]

lemma likeMatch_cons_nil (q : Char) (ps : List Char) (h : ¬ q = '%') :
    likeMatch (q :: ps) [] = false := by
  show (if q = '%' then _ else _) = _
  rw [if_neg h]

lemma likeMatch_pct_iff (ps s : List Char) :
    likeMatch ('%' :: ps) s = true ↔ ∃ t, t <:+ s ∧ likeMatch ps t = true := by
  rw [likeMatch_pct, List.any_eq_true]
  constructor
  · rintro ⟨t, ht, hm⟩
    exact ⟨t, (List.mem_tails t s).mp ht, hm⟩
  · rintro ⟨t, ht, hm⟩
    exact ⟨t, (List.mem_tails t s).mpr ht, hm⟩

/-- A wildcard-free pattern followed by a trailing `%` matches exactly the
lists it is a prefix of. -/
lemma likeMatch_lit (w : List Char) (hw : ∀ c ∈ w, c ≠ '%' ∧ c ≠ '_') :
    ∀ t, likeMatch (w ++ ['%']) t = true ↔ w <+: t := by
  induction w with
  | nil =>
    intro t
    simp only [List.nil_append]
    constructor
    · intro _
      exact List.nil_prefix
    · intro _
      rw [likeMatch_pct, List.any_eq_true]
      exact ⟨[], (List.mem_tails [] t).mpr List.nil_suffix, rfl⟩
  | cons c w ih =>
    intro t
    have hc := hw c (List.mem_cons_self c w)
    have hw2 : ∀ d ∈ w, d ≠ '%' ∧ d ≠ '_' := fun d hd => hw d (List.mem_cons_of_mem c hd)
    cases t with
    | nil =>
      rw [List.cons_append, likeMatch_cons_nil c _ hc.1]
      simp [List.prefix_nil]
    | cons d t2 =>
      rw [List.cons_append, likeMatch_cons c _ hc.1 d t2]
      rw [Bool.and_eq_true, Bool.or_eq_true, List.cons_prefix_cons]
      constructor
      · rintro ⟨hcd | hcd, h2⟩
        · exact absurd (beq_iff_eq.mp hcd) hc.2
        · exact ⟨beq_iff_eq.mp hcd, (ih hw2 t2).mp h2⟩
      · rintro ⟨hcd, h2⟩
        exact ⟨Or.inr (beq_iff_eq.mpr hcd), (ih hw2 t2).mpr h2⟩

/-- The SQL idiom `LIKE '%w%'` with a wildcard-free `w` is exactly the
substring (infix) test. -/
lemma likeContains_iff (w s : List Char) (hw : ∀ c ∈ w, c ≠ '%' ∧ c ≠ '_') :
    likeMatch ('%' :: (w ++ ['%'])) s = true ↔ w <:+: s := by
  rw [likeMatch_pct_iff]
  constructor
  · rintro ⟨t, hts, hm⟩
    exact List.infix_iff_prefix_suffix.mpr ⟨t, (likeMatch_lit w hw t).mp hm, hts⟩
  · intro h
    rcases List.infix_iff_prefix_suffix.mp h with ⟨t, hpre, hsuf⟩
    exact ⟨t, hsuf, (likeMatch_lit w hw t).mpr hpre⟩

lemma pat_data (w : String) : ("%" ++ w ++ "%").data = '%' :: (w.data ++ ['%']) := by
  cases w
  rfl

lemma lowerStr_data (s : String) : (lowerStr s).data = s.data.map Char.toLower := rfl

lemma lower_pat_data (kw : String) :
    (lowerStr ("%" ++ kw ++ "%")).data = '%' :: ((lowerStr kw).data ++ ['%']) := by
  rw [lowerStr_data, pat_data, lowerStr_data]
  have h : Char.toLower '%' = '%' := rfl
  simp [List.map_append, h]

/-- For wildcard-free tokens, one NLP token test is the case-insensitive
substring test on the three searched columns. -/
lemma nlpWordMatch_iff (w : String) (r : Cert)
    (hw : ∀ c ∈ w.data, c ≠ '%' ∧ c ≠ '_') :
    nlpWordMatch w r = true ↔
      (w.data <:+: (lowerStr r.employeename).data ∨
       w.data <:+: (lowerStr r.certificatetype).data ∨
       w.data <:+: (lowerStr r.certificatedescription).data) := by
  unfold nlpWordMatch likeS
  rw [Bool.or_eq_true, Bool.or_eq_true, pat_data w]
  rw [likeContains_iff _ _ hw, likeContains_iff _ _ hw, likeContains_iff _ _ hw]
  exact or_assoc

/-- For wildcard-free keywords, the keyword predicate is the
case-insensitive substring test on description and type. -/
lemma keywordMatch_iff (kw : String) (r : Cert)
    (h1 : '%' ∉ (lowerStr kw).data) (h2 : '_' ∉ (lowerStr kw).data) :
    keywordMatch kw r = true ↔
      ((lowerStr kw).data <:+: (lowerStr r.certificatedescription).data ∨
       (lowerStr kw).data <:+: (lowerStr r.certificatetype).data) := by
  have hw : ∀ c ∈ (lowerStr kw).data, c ≠ '%' ∧ c ≠ '_' := by
    intro c hc
    exact ⟨fun h => h1 (h ▸ hc), fun h => h2 (h ▸ hc)⟩
  unfold keywordMatch ciLike likeS
  rw [Bool.or_eq_true, lower_pat_data kw]
  rw [likeContains_iff _ _ hw, likeContains_iff _ _ hw]

/-- `ceil(total/per_page) * per_page` covers all `total` records. -/
lemma le_pagesFor_mul (total pp : Nat) (hpp : 1 ≤ pp) : total ≤ pagesFor total pp * pp := by
  unfold pagesFor
  by_cases h0 : total = 0
  · simp [h0]
  · rw [if_neg h0]
    have he : total + pp - 1 = (total - 1) + pp := by omega
    rw [he, Nat.add_div_right _ hpp, Nat.add_mul, Nat.one_mul]
    have h2 := Nat.div_add_mod (total - 1) pp
    have h3 : (total - 1) % pp < pp := Nat.mod_lt _ hpp
    generalize hm : (total - 1) % pp = m at h2 h3
    have h4 : pp * ((total - 1) / pp) = (total - 1) / pp * pp := Nat.mul_comm _ _
    rw [h4] at h2
    generalize hK : (total - 1) / pp * pp = K at h2 ⊢
    omega

lemma one_le_pagesFor (total pp : Nat) (h0 : 0 < total) (hpp : 1 ≤ pp) :
    1 ≤ pagesFor total pp := by
  unfold pagesFor
  rw [if_neg (by omega)]
  have h : pp ≤ total + pp - 1 := by omega
  exact (Nat.one_le_div_iff (by omega)).mpr h

/-- With the library default `error_out=True`, requesting a page past the
last one of a non-empty match set always aborts with 404. -/
lemma paginate_404_of_page_beyond (ms : List Cert) (page pp : Nat)
    (h0 : 0 < ms.length) (hpp : 1 ≤ pp) (hpage : pagesFor ms.length pp < page) :
    paginate ms page pp = Except.error 404 := by
  have hpages1 : 1 ≤ pagesFor ms.length pp := one_le_pagesFor _ _ h0 hpp
  have hitems : (ms.drop ((page - 1) * pp)).take pp = [] := by
    have hlen : ms.length ≤ (page - 1) * pp := by
      calc ms.length ≤ pagesFor ms.length pp * pp := le_pagesFor_mul _ _ hpp
        _ ≤ (page - 1) * pp := Nat.mul_le_mul_right _ (by omega)
    rw [List.drop_eq_nil_of_le hlen, List.take_nil]
  unfold paginate
  rw [if_neg (show ¬ page < 1 by omega), if_neg (show ¬ pp < 1 by omega),
      if_pos ⟨hitems, by omega⟩]

lemma tokenize_eq_nil_of_all_stop (q : String)
    (h : (splitWhite q).all (fun w => stopWords.contains (lowerStr w)) = true) :
    tokenize q = [] := by
  unfold tokenize tokenizeWords
  rw [List.filter_eq_nil_iff]
  intro a ha
  rcases List.mem_map.mp ha with ⟨w, hw, rfl⟩
  have hc := (List.all_eq_true.mp h) w hw
  simp only [hc, Bool.not_true]
  exact Bool.false_ne_true

/-! ### Claims -/

/-- C1 (corrected): for every filter endpoint, a requested page beyond
`total_pages` with a positive match count T does NOT succeed with an empty
window: flask-sqlalchemy's `paginate` is called with its default
`error_out=True`, finds the empty item window on a page different from 1,
and aborts the request with HTTP 404, so no totals are reported at all.
Stated for the shared `paginate` model and for the keyword endpoint the
claim cites. -/
theorem page_beyond_pages_404 :
    (∀ (ms : List Cert) (page pp : Nat),
        0 < ms.length → 1 ≤ pp → pagesFor ms.length pp < page →
        paginate ms page pp = Except.error 404) ∧
    (∀ (kw : String) (page pp : Nat) (db : List Cert),
        0 < (db.filter (fun r => keywordMatch kw r)).length → 1 ≤ pp →
        pagesFor (db.filter (fun r => keywordMatch kw r)).length pp < page →
        get_certs_by_keyword kw page pp db = Except.error 404) := by
  constructor
  · exact paginate_404_of_page_beyond
  · intro kw page pp db h0 hpp hpage
    unfold get_certs_by_keyword
    rw [paginate_404_of_page_beyond _ _ _ h0 hpp hpage]

/-- C1 counterexample to the claim as stated: one stored record matches
the keyword `"Azure"` (T = 1, total_pages = 1), yet requesting page 2 does
not yield a successful empty-window response — the request fails with 404. -/
theorem page_beyond_pages_counterexample :
    get_certs_by_keyword "Azure" 2 20 [patrickCert] = Except.error 404 := rfl

/-- C1 witness. -/
theorem page_beyond_pages_404_witness :
    get_certs_by_keyword "Azure" 3 20 [patrickCert] = Except.error 404 :=
  page_beyond_pages_404.2 "Azure" 3 20 [patrickCert] (by decide) (by decide) (by decide)

/-- C2 (corrected): the bare name endpoint `/certifications/name/<name>`
compares employee names with plain SQL equality — case-SENSITIVELY — while
only the combined name endpoints lowercase both sides.  The match
criteria of the two predicates are exact equality and case-insensitive
equality respectively. -/
theorem name_filter_case_sensitive :
    ∀ (q : String) (r : Cert),
      (nameMatch q r = true ↔ r.employeename = q) ∧
      (nameMatchCI q r = true ↔ lowerStr r.employeename = lowerStr q) := by
  intro q r
  exact ⟨beq_iff_eq, beq_iff_eq⟩

/-- C2 counterexample: the stored sample record "Patrick Dlamini" is NOT
matched by the bare name filter for "patrick dlamini". -/
theorem name_filter_counterexample :
    patrickCert.employeename = "Patrick Dlamini" ∧
    List.filter (fun r => nameMatch "patrick dlamini" r) [patrickCert] = [] :=
  ⟨rfl, rfl⟩

/-- C2 witness: the case-insensitive predicate of the combined endpoints
does match "patrick dlamini" against the stored "Patrick Dlamini". -/
theorem name_filter_case_sensitive_witness :
    nameMatchCI "patrick dlamini" patrickCert = true :=
  (name_filter_case_sensitive "patrick dlamini" patrickCert).2.mpr (by decide)

/-- C3 (confirmed): a record whose expiry date equals the current date is
matched by neither the expired (`<`, strict) nor the valid (`>`, strict)
predicate, hence appears in neither endpoint's match set. -/
theorem expiring_today_in_neither_bucket :
    ∀ (today : Int) (r : Cert) (db : List Cert),
      r.expirydate = some today →
      expiredMatch today r = false ∧ validMatch today r = false ∧
      r ∉ db.filter (fun c => expiredMatch today c) ∧
      r ∉ db.filter (fun c => validMatch today c) := by
  intro today r db h
  have h1 : expiredMatch today r = false := by
    unfold expiredMatch
    rw [h]
    exact decide_eq_false (lt_irrefl today)
  have h2 : validMatch today r = false := by
    unfold validMatch
    rw [h]
    exact decide_eq_false (lt_irrefl today)
  refine ⟨h1, h2, ?_, ?_⟩
  · simp [List.mem_filter, h1]
  · simp [List.mem_filter, h2]

/-- C3 witness: the sample record expiring 2024-05-30, queried on that
very date. -/
theorem expiring_today_witness :
    expiredMatch 20240530 patrickCert = false ∧ validMatch 20240530 patrickCert = false :=
  ⟨(expiring_today_in_neither_bucket 20240530 patrickCert [patrickCert] rfl).1,
   (expiring_today_in_neither_bucket 20240530 patrickCert [patrickCert] rfl).2.1⟩

/-- C4 (confirmed): when every whitespace-split word of the phrase is a
stop word, the NLP search returns the fixed "no valid search terms"
success response, and the result does not depend on the stored records at
all (the store is never consulted). -/
theorem all_stopwords_short_circuit :
    ∀ (q : String) (page pp : Nat) (db db2 : List Cert),
      (splitWhite q).all (fun w => stopWords.contains (lowerStr w)) = true →
      search_certifications_nlp q page pp db = Except.ok noTermsResponse ∧
      search_certifications_nlp q page pp db = search_certifications_nlp q page pp db2 := by
  intro q page pp db db2 h
  have ht := tokenize_eq_nil_of_all_stop q h
  constructor
  · unfold search_certifications_nlp
    rw [ht]
    rfl
  · unfold search_certifications_nlp
    rw [ht]
    rfl

/-- C4 witness: `"the of to"` consists only of stop words. -/
theorem all_stopwords_witness :
    search_certifications_nlp "the of to" 1 20 [patrickCert] = Except.ok noTermsResponse :=
  (all_stopwords_short_circuit "the of to" 1 20 [patrickCert] [] (by decide)).1

/-- C5 (corrected): the tokenizer splits on whitespace, lowercases, and
drops stop words (`"I want to search for Azure"` tokenizes to
`["azure"]`); a record matches the free-text search iff EVERY surviving
token, used as a SQL `LIKE` pattern wrapped in `%...%`, matches the
lowercased employee name OR certificate type OR description.  Only for
tokens free of the `LIKE` wildcards `%` and `_` is this the claimed
case-insensitive substring test (tokens are already lowercase, so
"substring of the lowercased field" is the case-insensitive substring
relation). -/
theorem nlp_tokenizer_and_match_criterion :
    tokenize "I want to search for Azure" = ["azure"] ∧
    ∀ (phrase : String) (r : Cert),
      (∀ w ∈ tokenize phrase, '%' ∉ w.data ∧ '_' ∉ w.data) →
      (nlpMatch (tokenize phrase) r = true ↔
        ∀ w ∈ tokenize phrase,
          (w.data <:+: (lowerStr r.employeename).data ∨
           w.data <:+: (lowerStr r.certificatetype).data ∨
           w.data <:+: (lowerStr r.certificatedescription).data)) := by
  constructor
  · rfl
  · intro phrase r hw
    have hwf : ∀ w ∈ tokenize phrase, ∀ c ∈ w.data, c ≠ '%' ∧ c ≠ '_' := by
      intro w hm c hc
      exact ⟨fun he => (hw w hm).1 (he ▸ hc), fun he => (hw w hm).2 (he ▸ hc)⟩
    unfold nlpMatch
    rw [List.all_eq_true]
    constructor
    · intro h w hm
      exact (nlpWordMatch_iff w r (hwf w hm)).mp (h w hm)
    · intro h w hm
      exact (nlpWordMatch_iff w r (hwf w hm)).mpr (h w hm)

/-- C5 counterexample to the claim as stated: the phrase `"az%900"`
survives tokenization unchanged, and the sample record matches the search
(the `%` acts as a wildcard inside `LIKE '%az%900%'`) even though
`"az%900"` is a substring of none of the three searched fields. -/
theorem nlp_wildcard_counterexample :
    nlpMatch (tokenize "az%900") patrickCert = true ∧
    ¬ ("az%900".data <:+: (lowerStr patrickCert.employeename).data ∨
       "az%900".data <:+: (lowerStr patrickCert.certificatetype).data ∨
       "az%900".data <:+: (lowerStr patrickCert.certificatedescription).data) := by
  constructor
  · rfl
  · decide

/-- C5 witness. -/
theorem nlp_tokenizer_and_match_witness :
    nlpMatch (tokenize "want Azure") patrickCert = true :=
  (nlp_tokenizer_and_match_criterion.2 "want Azure" patrickCert (by decide)).mpr (by decide)

/-- C6 (corrected): the combined name-plus-keyword endpoint matches a
record iff the employee name agrees case-insensitively AND the keyword,
used as a SQL `ilike` pattern wrapped in `%...%`, matches the description
OR the type.  For keywords whose lowercase form is free of the wildcards
`%` and `_`, the keyword part is exactly the claimed case-insensitive
substring test. -/
theorem name_keyword_match_criterion :
    ∀ (nm kw : String) (r : Cert),
      '%' ∉ (lowerStr kw).data → '_' ∉ (lowerStr kw).data →
      (nameKeywordMatch nm kw r = true ↔
        (lowerStr r.employeename = lowerStr nm ∧
          ((lowerStr kw).data <:+: (lowerStr r.certificatedescription).data ∨
           (lowerStr kw).data <:+: (lowerStr r.certificatetype).data))) := by
  intro nm kw r h1 h2
  unfold nameKeywordMatch nameMatchCI
  rw [Bool.and_eq_true, beq_iff_eq, keywordMatch_iff kw r h1 h2]

/-- C6 counterexample to the claim as stated: with keyword `"az%900"` the
sample record is matched (wildcard semantics) although the keyword is a
case-insensitive substring of neither description nor type. -/
theorem name_keyword_wildcard_counterexample :
    nameKeywordMatch "patrick dlamini" "az%900" patrickCert = true ∧
    ¬ ((lowerStr "az%900").data <:+: (lowerStr patrickCert.certificatedescription).data ∨
       (lowerStr "az%900").data <:+: (lowerStr patrickCert.certificatetype).data) := by
  constructor
  · rfl
  · decide

/-- C6 witness. -/
theorem name_keyword_match_witness :
    nameKeywordMatch "PATRICK dlamini" "Azure" patrickCert = true :=
  (name_keyword_match_criterion "PATRICK dlamini" "Azure" patrickCert
    (by decide) (by decide)).mpr (by decide)

/-- C7 (confirmed): without `confirmation=true`, the database-recreate
endpoint aborts with HTTP 400 "confirmation is missing" and the stored
records are left exactly as they were; the drop/create/seed sequence only
runs on explicit confirmation. -/
theorem unconfirmed_recreate_rejected :
    ∀ (conf : Bool) (db : List Cert),
      conf ≠ true →
      create_database conf db =
        (Except.error { status := 400, message := "confirmation is missing" }, db) := by
  intro conf db h
  have hf : conf = false := by
    cases conf
    · rfl
    · exact absurd rfl h
  subst hf
  rfl

/-- C7 witness. -/
theorem unconfirmed_recreate_witness :
    create_database false [patrickCert] =
      (Except.error { status := 400, message := "confirmation is missing" }, [patrickCert]) :=
  unconfirmed_recreate_rejected false [patrickCert] (by decide)

lemma nlpMatch_congr (ts ts2 : List String) (h : ∀ w, w ∈ ts ↔ w ∈ ts2) (r : Cert) :
    nlpMatch ts r = nlpMatch ts2 r := by
  unfold nlpMatch
  cases hb : ts2.all (fun w => nlpWordMatch w r) with
  | true =>
    rw [List.all_eq_true] at hb ⊢
    intro w hw
    exact hb w ((h w).mp hw)
  | false =>
    cases ha : ts.all (fun w => nlpWordMatch w r) with
    | false => rfl
    | true =>
      exfalso
      rw [List.all_eq_true] at ha
      have hb2 : ts2.all (fun w => nlpWordMatch w r) = true := by
        rw [List.all_eq_true]
        intro w hw
        exact ha w ((h w).mpr hw)
      rw [hb] at hb2
      exact Bool.false_ne_true hb2

lemma tokenizeWords_append (a b : List String) :
    tokenizeWords (a ++ b) = tokenizeWords a ++ tokenizeWords b := by
  unfold tokenizeWords
  rw [List.map_append, List.filter_append]

/-- C8 (confirmed): duplicating a non-stopword word of the phrase does not
change the set of matching records, and more generally the match set
depends only on the membership of the surviving token list, not on
multiplicities (the chained filters AND the tokens, and conjunction is
idempotent).  Phrases are represented by their whitespace-split word
lists, which is how they enter the token stage (`tokenize =
tokenizeWords ∘ splitWhite`). -/
theorem duplicate_word_no_effect :
    (∀ (ws : List String) (x : String) (db : List Cert),
        x ∈ ws → stopWords.contains (lowerStr x) = false →
        db.filter (fun r => nlpMatch (tokenizeWords (ws ++ [x])) r) =
          db.filter (fun r => nlpMatch (tokenizeWords ws) r)) ∧
    (∀ (ts ts2 : List String) (db : List Cert),
        (∀ w, w ∈ ts ↔ w ∈ ts2) →
        db.filter (fun r => nlpMatch ts r) = db.filter (fun r => nlpMatch ts2 r)) := by
  have hset : ∀ (ts ts2 : List String) (db : List Cert),
      (∀ w, w ∈ ts ↔ w ∈ ts2) →
      db.filter (fun r => nlpMatch ts r) = db.filter (fun r => nlpMatch ts2 r) := by
    intro ts ts2 db h
    exact List.filter_congr (fun r _ => nlpMatch_congr ts ts2 h r)
  refine ⟨?_, hset⟩
  intro ws x db hx hstop
  apply hset
  intro w
  rw [tokenizeWords_append]
  have hmem : lowerStr x ∉ stopWords := by simpa using hstop
  have hsing : tokenizeWords [x] = [lowerStr x] := by
    unfold tokenizeWords
    simp [hmem]
  rw [hsing]
  constructor
  · intro hw
    rcases List.mem_append.mp hw with h1 | h1
    · exact h1
    · rw [List.mem_singleton] at h1
      subst h1
      unfold tokenizeWords
      rw [List.mem_filter]
      refine ⟨List.mem_map_of_mem lowerStr hx, ?_⟩
      simp [hmem]
  · intro hw
    exact List.mem_append.mpr (Or.inl hw)

/-- C8 witness: duplicating the surviving token "azure" leaves the match
set unchanged. -/
theorem duplicate_word_witness :
    List.filter (fun r => nlpMatch (tokenizeWords (["want", "azure"] ++ ["azure"])) r)
        [patrickCert] =
      List.filter (fun r => nlpMatch (tokenizeWords ["want", "azure"]) r) [patrickCert] :=
  duplicate_word_no_effect.1 ["want", "azure"] "azure" [patrickCert] (by decide) (by decide)

lemma countChar_append (c : Char) (s t : String) :
    countChar c (s ++ t) = countChar c s + countChar c t := by
  unfold countChar
  rw [data_append, List.count_append]

lemma escapeChar_no_angle (d : Char) :
    '<' ∉ (escapeChar d).data ∧ '>' ∉ (escapeChar d).data := by
  unfold escapeChar
  split_ifs with h1 h2 h3 h4 h5
  · exact ⟨by decide, by decide⟩
  · exact ⟨by decide, by decide⟩
  · exact ⟨by decide, by decide⟩
  · exact ⟨by decide, by decide⟩
  · exact ⟨by decide, by decide⟩
  · constructor
    · intro hm
      exact h2 (List.mem_singleton.mp hm).symm
    · intro hm
      exact h3 (List.mem_singleton.mp hm).symm

lemma escape_no_angle (s : String) :
    '<' ∉ (escape s).data ∧ '>' ∉ (escape s).data := by
  unfold escape
  constructor
  · intro hm
    rcases List.mem_flatten.mp hm with ⟨l, hl, hml⟩
    rcases List.mem_map.mp hl with ⟨d, _, rfl⟩
    exact (escapeChar_no_angle d).1 hml
  · intro hm
    rcases List.mem_flatten.mp hm with ⟨l, hl, hml⟩
    rcases List.mem_map.mp hl with ⟨d, _, rfl⟩
    exact (escapeChar_no_angle d).2 hml

lemma countChar_escape (c : Char) (hc : c = '<' ∨ c = '>') (s : String) :
    countChar c (escape s) = 0 := by
  unfold countChar
  rw [List.count_eq_zero]
  rcases hc with rfl | rfl
  · exact (escape_no_angle s).1
  · exact (escape_no_angle s).2

lemma countChar_rowHtml (c : Char) (hc : c = '<' ∨ c = '>') (r : Cert) :
    countChar c (rowHtml r) = 12 := by
  unfold rowHtml
  rw [countChar_append, countChar_append, countChar_append, countChar_append,
      countChar_append, countChar_append, countChar_append, countChar_append,
      countChar_append, countChar_append]
  rw [countChar_escape c hc, countChar_escape c hc, countChar_escape c hc,
      countChar_escape c hc, countChar_escape c hc]
  rcases hc with rfl | rfl
  · rfl
  · rfl

lemma countChar_tableHtml (c : Char) (hc : c = '<' ∨ c = '>') (certs : List Cert) :
    countChar c (tableHtml certs) = 14 + 12 * certs.length := by
  unfold tableHtml
  rw [countChar_append, countChar_append]
  have hrows : ∀ cs : List Cert, countChar c (rowsHtml cs) = 12 * cs.length := by
    intro cs
    induction cs with
    | nil => rcases hc with rfl | rfl <;> rfl
    | cons r rs ih =>
      show countChar c (rowHtml r ++ rowsHtml rs) = 12 * (r :: rs).length
      rw [countChar_append, countChar_rowHtml c hc r, ih, List.length_cons]
      omega
  rw [hrows]
  have hhead : countChar c headerRow = 13 := by rcases hc with rfl | rfl <;> rfl
  have hclose : countChar c "</table>" = 1 := by rcases hc with rfl | rfl <;> rfl
  rw [hhead, hclose]
  omega

/-- C9 (confirmed): every field value embedded in a rendered table passes
through `html.escape`, whose output never contains a raw `<` or `>`;
consequently the number of `<` (and of `>`) in the whole `"table"` string
is the fixed markup count `14 + 12·(number of rows)` regardless of the
field contents — field text cannot add or break tags in the table markup. -/
theorem rendered_fields_escaped :
    (∀ s : String, '<' ∉ (escape s).data ∧ '>' ∉ (escape s).data) ∧
    (∀ certs : List Cert,
        countChar '<' (tableHtml certs) = 14 + 12 * certs.length ∧
        countChar '>' (tableHtml certs) = 14 + 12 * certs.length) := by
  refine ⟨escape_no_angle, ?_⟩
  intro certs
  exact ⟨countChar_tableHtml '<' (Or.inl rfl) certs,
         countChar_tableHtml '>' (Or.inr rfl) certs⟩

/-- C10 (confirmed): the short-circuit response of the NLP search carries
no pagination object and no search_terms field (both keys are absent),
while every successful search response carries both; the short-circuit
body is exactly the placeholder table plus message. -/
theorem no_terms_response_shape :
    noTermsResponse.pagination = none ∧
    noTermsResponse.search_terms = none ∧
    ∀ (q : String) (page pp : Nat) (db : List Cert),
      (tokenize q = [] → search_certifications_nlp q page pp db = Except.ok noTermsResponse) ∧
      (tokenize q ≠ [] →
        okHasPagAndTerms (search_certifications_nlp q page pp db) =
          isOkE (search_certifications_nlp q page pp db)) := by
  refine ⟨rfl, rfl, ?_⟩
  intro q page pp db
  constructor
  · intro h
    unfold search_certifications_nlp
    rw [h]
    rfl
  · intro h
    have hne : (tokenize q).isEmpty = false := by
      cases htok : tokenize q with
      | nil => exact absurd htok h
      | cons a l => rfl
    unfold search_certifications_nlp
    rw [hne]
    rw [if_neg Bool.false_ne_true]
    cases hp : paginate (db.filter (fun r => nlpMatch (tokenize q) r)) page pp with
    | error e => rfl
    | ok p => rfl

/-- C10 witness. -/
theorem no_terms_response_witness :
    search_certifications_nlp "the" 1 20 [] = Except.ok noTermsResponse ∧
    okHasPagAndTerms (search_certifications_nlp "azure" 1 20 [patrickCert]) =
      isOkE (search_certifications_nlp "azure" 1 20 [patrickCert]) :=
  ⟨(no_terms_response_shape.2.2 "the" 1 20 []).1 (by decide),
   (no_terms_response_shape.2.2 "azure" 1 20 [patrickCert]).2 (by decide)⟩

end CertApp
